import Mathlib

/-
Verification of the AJJS financial-analytics data pipeline.

This file gives a shallow embedding, in Lean 4, of the data-normalization
and derivation pipeline of the repository: the purity classifiers
(src/models/sales.py and src/readers/wingold.py), the sales normalizer
(src/models/sales.py), the Wingold sales extraction (src/readers/wingold.py),
the cashbook ledger normalizer (src/readers/cashbook.py) and the monthly
financial aggregator (src/backend/analytics.py).

Modelling conventions:
- pandas float64 columns are modelled by the rationals ℚ (the business
  constants appearing in the code are exact decimals);
- calendar months and dates are modelled by abstract integer keys;
- a Python function that raises is modelled in the Except monad, while a
  function that returns an exception object without raising it (the slip in
  src/readers/wingold.py) is modelled by a sum-like result type whose error
  constructor is an ordinary return value;
- the interpolated text of Python error messages is abstracted to the
  offending value itself.
-/

namespace AJJS

/-! ## Purity classifiers

Two variants exist in the source.  `SalesPurity` embeds the `Purity` class of
src/models/sales.py (which raises `ValueError` on an unclassifiable purity);
`WingoldPurity` embeds the `Purity` class of src/readers/wingold.py (which
RETURNS the `ValueError` object instead of raising it).  In both, the loop
over the fixed `ranges` dictionary is unrolled into the corresponding chain
of conditionals, in dictionary order. -/

namespace SalesPurity

/-- The band table of src/models/sales.py: `ranges`, as an ordered list of
(karat key, lower bound, upper bound). Note the 22K lower bound 0.916 and
the 9K upper bound 0.41 of this variant. -/
def ranges : List (String × ℚ × ℚ) :=
  [("22K", 0.916, 0.926), ("21K", 0.875, 0.880), ("18K", 0.75, 0.76),
   ("9K", 0.375, 0.41)]

/-- Embeds `Purity.get_purity_category` of src/models/sales.py: first band
of `ranges` (in order) containing the purity, else a raised `ValueError`,
modelled as `Except.error` carrying the offending purity. -/
def get_purity_category (purity : ℚ) : Except ℚ String :=
  if 0.916 ≤ purity ∧ purity ≤ 0.926 then .ok "22K"
  else if 0.875 ≤ purity ∧ purity ≤ 0.880 then .ok "21K"
  else if 0.75 ≤ purity ∧ purity ≤ 0.76 then .ok "18K"
  else if 0.375 ≤ purity ∧ purity ≤ 0.41 then .ok "9K"
  else .error purity

/-- Embeds `Purity.get_manufacturing_purity` of src/models/sales.py: the
lower bound of the first band containing the purity, else a raised
`ValueError`. -/
def get_manufacturing_purity (purity : ℚ) : Except ℚ ℚ :=
  if 0.916 ≤ purity ∧ purity ≤ 0.926 then .ok 0.916
  else if 0.875 ≤ purity ∧ purity ≤ 0.880 then .ok 0.875
  else if 0.75 ≤ purity ∧ purity ≤ 0.76 then .ok 0.75
  else if 0.375 ≤ purity ∧ purity ≤ 0.41 then .ok 0.375
  else .error purity

end SalesPurity

namespace WingoldPurity

/-- Result type of the classifier of src/readers/wingold.py.  `val` is a
normal string return; `valueErrorObj` models the `ValueError` object that
the source RETURNS (rather than raises) as an ordinary value. -/
inductive PyResult where
  | val (category : String)
  | valueErrorObj (purity : ℚ)
deriving DecidableEq, Repr

/-- The band table of src/readers/wingold.py: `ranges`.  Note the 22K lower
bound 0.9165 and the 9K upper bound 0.4 of this variant. -/
def ranges : List (String × ℚ × ℚ) :=
  [("22K", 0.9165, 0.926), ("21K", 0.875, 0.880), ("18K", 0.75, 0.76),
   ("9K", 0.375, 0.4)]

/-- Embeds `Purity.get_purity_category` of src/readers/wingold.py: first
band of `ranges` containing the purity; on no match the source executes
`return ValueError(...)`, delivering the exception object as a NORMAL
return value, modelled by the `valueErrorObj` constructor. -/
def get_purity_category (purity : ℚ) : PyResult :=
  if 0.9165 ≤ purity ∧ purity ≤ 0.926 then .val "22K"
  else if 0.875 ≤ purity ∧ purity ≤ 0.880 then .val "21K"
  else if 0.75 ≤ purity ∧ purity ≤ 0.76 then .val "18K"
  else if 0.375 ≤ purity ∧ purity ≤ 0.4 then .val "9K"
  else .valueErrorObj purity

end WingoldPurity

/-! ## Wingold transaction extraction (src/readers/wingold.py)

Document numbers are modelled as lists of characters; the source only ever
inspects a single-character prefix via `str.startswith`. -/

/-- Models `doc_number.startswith(c)` for a one-character prefix: true iff
the string is nonempty and its first character is `c`. -/
def startsWithChar (c : Char) : List Char → Bool
  | [] => false
  | a :: _ => a == c

/-- Embeds `TransactionType.identify_transaction` of src/readers/wingold.py:
the name of the transaction-type enum member selected by the document-number
prefix, or the literal "Unknown". -/
def identify_transaction (doc_number : List Char) : String :=
  if startsWithChar 'S' doc_number then "SALE"
  else if startsWithChar 'P' doc_number then "PURCHASE"
  else if startsWithChar 'R' doc_number then "RETURN"
  else if startsWithChar 'D' doc_number then "DIRECT_SALE"
  else "Unknown"

/-- A preprocessed Wingold transaction row, with the fields that
`WingoldReader.__extract_sales` reads or writes. -/
structure Tx where
  docNumber : List Char
  grossWt : ℚ
  pureWt : ℚ
  makingValue : ℚ
  purity : ℚ
  manufacturingPurity : ℚ
deriving DecidableEq, Repr

/-- The sign inversion `__extract_sales` applies to the `sales_returns`
slice: gross weight, pure weight and making value are negated. -/
def negate_return (t : Tx) : Tx :=
  { t with grossWt := -t.grossWt, pureWt := -t.pureWt,
           makingValue := -t.makingValue }

/-- A canonical sales row: a transaction together with the `GoldGains`
column added at the end of `__extract_sales`. -/
structure SalesTx extends Tx where
  goldGains : ℚ
deriving DecidableEq, Repr

/-- The `GoldGains` derivation of `__extract_sales`:
(Purity − ManufacturingPurity) × GrossWt. -/
def with_gold_gains (t : Tx) : SalesTx :=
  { t with goldGains := (t.purity - t.manufacturingPurity) * t.grossWt }

/-- Embeds `WingoldReader.__extract_sales`: rows whose document number
starts with "R" are copied with negated weight/value fields, rows starting
with "S" are kept as-is, the two slices are concatenated (sales first) and
the `GoldGains` column is derived on the result. -/
def extract_sales (transactions : List Tx) : List SalesTx :=
  let sales_returns :=
    (transactions.filter (fun t => startsWithChar 'R' t.docNumber)).map
      negate_return
  let sales := transactions.filter (fun t => startsWithChar 'S' t.docNumber)
  (sales ++ sales_returns).map with_gold_gains

/-! ## Cashbook ledger normalization (src/readers/cashbook.py) -/

/-- A raw sub-ledger row as produced by `CashbookReader.__read_sheet`
(header rows skipped, no-date rows dropped, Debit/Credit NaN filled with 0,
Category upper-cased): the six canonical columns, with the date as an
abstract integer key. -/
structure RawLedgerRow where
  date : ℤ
  details : String
  category : String
  debit : ℚ
  credit : ℚ
  balance : ℚ
deriving DecidableEq, Repr

/-- The seeding step `mcb.loc[0, "Credit"] = mcb.loc[0, "Balance"]` of
`CashbookReader.__read_sheets`: the first row's credit is overwritten with
its originally recorded balance. -/
def seed_opening_credit : List RawLedgerRow → List RawLedgerRow
  | [] => []
  | r :: rest => { r with credit := r.balance } :: rest

/-- The running-balance recomputation
`Balance = Credit.cumsum() - Debit.cumsum()` of
`CashbookReader.__read_sheets`, written top-to-bottom with accumulator
`acc` = (credits so far) − (debits so far). -/
def recompute_balance (acc : ℚ) : List RawLedgerRow → List RawLedgerRow
  | [] => []
  | r :: rest =>
      let b := acc + r.credit - r.debit
      { r with balance := b } :: recompute_balance b rest

/-- The MAIN CASH BOOK processing of `__read_sheets`: seed the first row's
credit from its recorded balance, then recompute the running balance. -/
def read_mcb_rows (rows : List RawLedgerRow) : List RawLedgerRow :=
  recompute_balance 0 (seed_opening_credit rows)

/-- The QTR CASH processing of `__read_sheets`: recompute the running
balance with no seeding. -/
def read_qtr_rows (rows : List RawLedgerRow) : List RawLedgerRow :=
  recompute_balance 0 rows

/-- A canonical cashbook row (the column structure fixed at the end of
`CashbookReader.__init__`).  `balance` is an `Option` because rows injected
from supplier sheets carry no balance (NaN in the source frame). -/
structure LedgerRow where
  date : ℤ
  details : String
  debit : ℚ
  credit : ℚ
  balance : Option ℚ
  category : String
  superCategory : String
  subCategory : String
  costType : String
  qtr : Bool
deriving DecidableEq, Repr

/-- A raw supplier-sheet row as read by
`CashbookReader.read_supplier_account` (columns Date, Invoice No.,
Description, VAT Amount, Total; Total NaN filled with 0). -/
structure SupplierRaw where
  date : ℤ
  invoiceNo : String
  description : String
  vatAmount : ℚ
  total : ℚ
deriving DecidableEq, Repr

/-- The date key of the cut-off `pd.Timestamp("2025-01-01")` used by
`read_supplier_account`. -/
def timestamp_2025_01_01 : ℤ := 20250101

/-- The parsing and reshaping part of `read_supplier_account`: keep rows
dated on or after 2025-01-01 with positive Total, rename Total to Debit and
Description to Details, and fill the constant columns (Credit 0,
Super-Category "Operations", Sub-Category "Suppliers", Category = the
supplier's category name, Cost Type "VARIABLE", QTR false). -/
def parse_supplier_sheet (sheet : List SupplierRaw) (category_name : String) :
    List LedgerRow :=
  ((sheet.filter (fun r => timestamp_2025_01_01 ≤ r.date)).filter
      (fun r => 0 < r.total)).map
    (fun r =>
      { date := r.date, details := r.description, debit := r.total,
        credit := 0, balance := none, category := category_name,
        superCategory := "Operations", subCategory := "Suppliers",
        costType := "VARIABLE", qtr := false })

/-- Embeds `CashbookReader.read_supplier_account`: every existing cashbook
row whose Category equals the supplier's category name is removed, then the
freshly parsed supplier rows are appended. -/
def read_supplier_account (cashbook : List LedgerRow)
    (sheet : List SupplierRaw) (category_name : String) : List LedgerRow :=
  (cashbook.filter (fun r => r.category ≠ category_name)) ++
    parse_supplier_sheet sheet category_name

/-- One sub-category entry of a category-mapping table: the raw category
values it matches, and its cost-type key (the JSON fields "values" and
"key"). -/
structure CatEntry where
  values : List String
  key : String
deriving DecidableEq, Repr

/-- A category-mapping table (expense_categories.json or
income_categories.json): super-category → sub-category → entry. -/
abbrev CategoryDB := List (String × List (String × CatEntry))

/-- Embeds `CashbookReader.__assign_subcategory`: the first sub-category
(scanning super-categories, then their sub-categories, in table order)
whose value list contains the row's raw Category; "Uncategorized" when none
does. -/
def assign_subcategory (rowCategory : String) (category_db : CategoryDB) :
    String :=
  match ((category_db.map Prod.snd).flatten).find?
      (fun kv => kv.2.values.contains rowCategory) with
  | some kv => kv.1
  | none => "Uncategorized"

/-- Embeds `CashbookReader.__assign_supercategory`: the first
super-category whose sub-category keys contain the row's (already resolved)
Sub-Category; "Uncategorized" when none does. -/
def assign_supercategory (subCategory : String) (category_db : CategoryDB) :
    String :=
  match category_db.find?
      (fun sc => (sc.2.map Prod.fst).contains subCategory) with
  | some sc => sc.1
  | none => "Uncategorized"

/-- Embeds `CashbookReader.__assign_cost_type`: the cost-type key of the
first sub-category entry whose name equals the row's Sub-Category;
"Uncategorized" when the Sub-Category is not in the table. -/
def assign_cost_type (subCategory : String) (category_db : CategoryDB) :
    String :=
  match ((category_db.map Prod.snd).flatten).find?
      (fun kv => kv.1 == subCategory) with
  | some kv => kv.2.key
  | none => "Uncategorized"

/-- Embeds the per-row effect of `CashbookReader.__assign_categories`:
Sub-Category from the income table when Credit > 0 else the expense table;
Super-Category from the same table using the just-assigned Sub-Category;
Cost Type from the expense table only when Debit > 0, else the empty
string. -/
def assign_categories_row (income_db expense_db : CategoryDB)
    (row : LedgerRow) : LedgerRow :=
  let db := if 0 < row.credit then income_db else expense_db
  let sub := assign_subcategory row.category db
  let sup := assign_supercategory sub db
  let ct := if 0 < row.debit then assign_cost_type sub expense_db else ""
  { row with subCategory := sub, superCategory := sup, costType := ct }

/-- Embeds `CashbookReader.__assign_categories` applied to a whole book. -/
def assign_categories (income_db expense_db : CategoryDB)
    (book : List LedgerRow) : List LedgerRow :=
  book.map (assign_categories_row income_db expense_db)

/-- A small expense-category table shaped like the external configuration
(data/static/expense_categories.json, structure per the JSON consumed by
`CashbookReader`), with only the keys FIXED and VARIABLE. -/
def exampleExpenseDB : CategoryDB :=
  [("Operations",
    [("Suppliers", ⟨["NEVERTITI SHJ"], "VARIABLE"⟩),
     ("Rent", ⟨["RENT"], "FIXED"⟩)])]

/-- A small income-category table shaped like the external configuration
(data/static/income_categories.json). -/
def exampleIncomeDB : CategoryDB :=
  [("Sales", [("Making Charges", ⟨["MAKING CHARGES"], "VARIABLE"⟩)])]

/-- A debit-positive ledger row whose raw category matches nothing in
`exampleExpenseDB`. -/
def exampleUnmatchedRow : LedgerRow :=
  { date := 0, details := "", debit := 5, credit := 0, balance := none,
    category := "ZZZ", superCategory := "", subCategory := "",
    costType := "", qtr := false }

/-- A debit-positive ledger row whose raw category is listed under the
Suppliers sub-category of `exampleExpenseDB`. -/
def exampleSupplierRow : LedgerRow :=
  { date := 0, details := "", debit := 7, credit := 0, balance := none,
    category := "NEVERTITI SHJ", superCategory := "", subCategory := "",
    costType := "", qtr := false }

/-! ## Sales normalizer (src/models/sales.py)

Item codes are modelled as lists of characters so that the `str.upper` and
`str.extract` operations are structurally computable.  The Month/Week/Day
period-string columns are not modelled (the transaction date is carried
through as an abstract key). -/

/-- The canonical required-column set `Sales.required_columns`. -/
def required_columns : List String :=
  ["Invoice Number", "Date", "Customer", "Item Code", "Purity",
   "Unit Quantity", "Gross Weight", "Pure Weight", "Making Rate",
   "Making Value"]

/-- An input sales row, in canonical (post-rename) column form. -/
structure SalesInput where
  invoiceNumber : String
  date : ℤ
  customer : String
  itemCode : List Char
  purity : ℚ
  unitQuantity : ℚ
  grossWeight : ℚ
  pureWeight : ℚ
  makingRate : ℚ
  makingValue : ℚ
deriving DecidableEq, Repr

/-- A preprocessed sales row: the input columns (item code upper-cased)
plus the columns derived by `Sales.__preprocess`.  `itemCategory` is an
`Option` because a `Series.map` over the fixed dictionary leaves unmapped
codes missing (NaN); `weightRange` is an `Option` because `pd.cut` leaves
out-of-range values missing. -/
structure SalesRow extends SalesInput where
  itemCategory : Option String
  purityCategory : String
  manufacturingPurity : ℚ
  goldGains : ℚ
  itemWeight : ℚ
  weightRange : Option String
deriving DecidableEq, Repr

/-- A regex word character, for the pattern `\w`. -/
def isWordChar (c : Char) : Bool :=
  c.isAlphanum || c == '_'

/-- One attempted match of the pattern `\d{0,2}(\w+)` anchored at the
current position: greedily consume up to two leading digits (backtracking
from two to zero) and capture the following nonempty word-character run. -/
def matchCodeHere (cs : List Char) : Option String :=
  let attempt : ℕ → Option String := fun k =>
    if (cs.take k).length = k ∧ (cs.take k).all Char.isDigit ∧
        ((cs.drop k).takeWhile isWordChar) ≠ [] then
      some (String.mk ((cs.drop k).takeWhile isWordChar))
    else none
  (attempt 2 <|> attempt 1) <|> attempt 0

/-- Models `Series.str.extract(r"\d{0,2}(\w+)")` on one string: the capture
group of the leftmost match, or missing when the pattern matches nowhere. -/
def searchCode : List Char → Option String
  | [] => none
  | c :: rest => matchCodeHere (c :: rest) <|> searchCode rest

/-- The fixed code-to-category dictionary of `Sales.__preprocess`. -/
def item_category_table : List (String × String) :=
  [("BRA", "Bracelets"), ("CHA", "Chains"), ("C", "Chains"),
   ("CHAHA", "Chains"), ("BAN", "Bangles"), ("RIN", "Rings"),
   ("RING", "Rings"), ("PEN", "Pendants"), ("PSET", "Pendants"),
   ("UNCAT", "Uncategorized"), ("UNK", "Uncategorized")]

/-- Models the `Series.map` over `item_category_table`: keys not in the
dictionary become missing values (NaN), i.e. `none` — not
"Uncategorized". -/
def item_category_of (extracted : Option String) : Option String :=
  extracted.bind (fun c => item_category_table.lookup c)

/-- The conditional drop of `Sales.__preprocess`: when the batch has no row
labelled "Uncategorized", the rows whose label differs from
"Uncategorized" are kept — a filter that removes nothing in either
branch. -/
def drop_uncategorized (rows : List (SalesInput × Option String)) :
    List (SalesInput × Option String) :=
  if (rows.filter (fun p => p.2 == some "Uncategorized")).isEmpty then
    rows.filter (fun p => !(p.2 == some "Uncategorized"))
  else rows

/-- The weight-range binning `pd.cut(ItemWeight, bins, right=False)` of
`Sales.__preprocess`: left-inclusive buckets over
[0,20,30,40,50,100,150,∞); a weight below 0 falls in no bin and is left
missing. -/
def weight_range_of (w : ℚ) : Option String :=
  if w < 0 then none
  else if w < 20 then some "<20g"
  else if w < 30 then some "20-30g"
  else if w < 40 then some "30-40g"
  else if w < 50 then some "40-50g"
  else if w < 100 then some "50-100g"
  else if w < 150 then some "100-150g"
  else some ">150g"

/-- The derivation step of `Sales.__preprocess` applied to one surviving
row (already paired with its mapped item category): classify the purity
(both classifier calls raise on an out-of-band purity), then derive gold
gains, the per-item weight and the weight range.  The per-item weight uses
total division on ℚ, so a zero unit quantity yields 0 where pandas yields
infinity. -/
def classify_row (p : SalesInput × Option String) : Except ℚ SalesRow :=
  match SalesPurity.get_purity_category p.1.purity,
        SalesPurity.get_manufacturing_purity p.1.purity with
  | .ok cat, .ok mp =>
      .ok { p.1 with
        itemCategory := p.2,
        purityCategory := cat,
        manufacturingPurity := mp,
        goldGains := (p.1.purity - mp) * p.1.grossWeight,
        itemWeight := p.1.grossWeight / p.1.unitQuantity,
        weightRange := weight_range_of (p.1.grossWeight / p.1.unitQuantity) }
  | .error e, _ => .error e
  | .ok _, .error e => .error e

/-- The row-wise derivation over the whole batch; the first classification
failure aborts the batch, as the raised `ValueError` propagates out of the
pandas `apply`. -/
def classify_rows :
    List (SalesInput × Option String) → Except ℚ (List SalesRow)
  | [] => .ok []
  | p :: rest =>
      match classify_row p with
      | .error e => .error e
      | .ok r =>
          match classify_rows rest with
          | .error e => .error e
          | .ok rs => .ok (r :: rs)

/-- Embeds `Sales.__preprocess`: upper-case the item code, extract and map
the item category, conditionally drop "Uncategorized" rows, drop the
0.995-purity artifact rows, then classify and derive the remaining
columns. -/
def preprocess (df : List SalesInput) : Except ℚ (List SalesRow) :=
  let upper := df.map
    (fun r => { r with itemCode := r.itemCode.map Char.toUpper })
  let withCat := upper.map
    (fun r => (r, item_category_of (searchCode r.itemCode)))
  let kept := drop_uncategorized withCat
  let kept995 := kept.filter (fun p => p.1.purity ≠ (0.995 : ℚ))
  classify_rows kept995

/-- The `Sales` aggregate object: its `_df` attribute (None until the
first successful ingestion). -/
structure Sales where
  df : Option (List SalesRow)
deriving DecidableEq, Repr

/-- The failure modes of `Sales.add_data`: the schema `ValueError` raised
on an invalid rename mapping, or a purity `ValueError` propagated out of
`__preprocess`. -/
inductive AddDataError where
  | mappingError
  | purityError (purity : ℚ)
deriving DecidableEq, Repr

/-- Embeds `Sales.add_data` as a state transformer: the new object state
paired with `none` on success, or the UNCHANGED state paired with the
raised error.  When a nonempty mapping is supplied, the guard
`all(k in Sales.required_columns for k in mapping.values())` runs first
and rejects the call before any renaming, preprocessing or concatenation;
the typed row model stands for the post-rename frame, so the rename itself
is the identity. -/
def add_data (s : Sales) (df : List SalesInput)
    (mapping : Option (List (String × String))) :
    Sales × Option AddDataError :=
  let proceed : Unit → Sales × Option AddDataError := fun _ =>
    match preprocess df with
    | .error p => (s, some (.purityError p))
    | .ok rows =>
        match s.df with
        | none => (⟨some rows⟩, none)
        | some old => (⟨some (old ++ rows)⟩, none)
  match mapping with
  | some m =>
      if m.isEmpty then proceed ()
      else if m.all (fun kv => kv.2 ∈ required_columns) then proceed ()
      else (s, some .mappingError)
  | none => proceed ()

/-- A one-row batch whose item code "18xyz" has an extracted alphabetic
part ("XYZ" after upper-casing) that is not in `item_category_table`, and
whose purity 0.916 classifies as 22K. -/
def exampleNoiseBatch : List SalesInput :=
  [{ invoiceNumber := "S1", date := 0, customer := "C",
     itemCode := ['1', '8', 'x', 'y', 'z'], purity := 0.916,
     unitQuantity := 1, grossWeight := 10, pureWeight := 9.16,
     makingRate := 1, makingValue := 10 }]

/-- The row `preprocess` produces from `exampleNoiseBatch`: the unmapped
code is retained with a MISSING item category (`none`), not
"Uncategorized". -/
def exampleNoiseRow : SalesRow :=
  { invoiceNumber := "S1", date := 0, customer := "C",
    itemCode := ['1', '8', 'X', 'Y', 'Z'], purity := 0.916,
    unitQuantity := 1, grossWeight := 10, pureWeight := 9.16,
    makingRate := 1, makingValue := 10, itemCategory := none,
    purityCategory := "22K", manufacturingPurity := 0.916,
    goldGains := (0.916 - 0.916) * 10, itemWeight := 10,
    weightRange := some "<20g" }

/-! ## Monthly financial aggregation (src/backend/analytics.py)

Calendar months are abstract integer keys (`DocDate.dt.to_period("M")`).
`groupby` tables are association lists month → sum; the outer merge is a
lookup returning `none` for an absent month (NaN before `fillna(0)`). -/

/-- A sales-table row as consumed by `Analytics.income_expenses_data`:
the month of DocDate, MakingValue and GoldGains. -/
structure AggSalesRow where
  month : ℤ
  makingValue : ℚ
  goldGains : ℚ
deriving DecidableEq, Repr

/-- A canonical-ledger row as consumed by
`Analytics.income_expenses_data`. -/
structure AggCashRow where
  month : ℤ
  subCategory : String
  superCategory : String
  credit : ℚ
  debit : ℚ
  costType : String
deriving DecidableEq, Repr

/-- A row of the static fixed-costs table. -/
structure FixedCostRow where
  subCategory : String
  superCategory : String
  debit : ℚ
deriving DecidableEq, Repr

/-- A `groupby(month).agg(sum)` table: one (month, sum-over-that-month)
pair per distinct month of the input rows. -/
def group_sum {α : Type} (month : α → ℤ) (val : α → ℚ) (rows : List α) :
    List (ℤ × ℚ) :=
  ((rows.map month).dedup).map
    (fun m => (m, ((rows.filter (fun r => month r == m)).map val).sum))

/-- A column read after the outer merge on Month: the grouped value at a
month, or `none` when that month is absent from the grouped table (a NaN
cell before `fillna(0)`). -/
def merged_at (table : List (ℤ × ℚ)) (m : ℤ) : Option ℚ :=
  (table.find? (fun p => p.1 == m)).map (fun p => p.2)

/-- A row of the monthly financial summary produced by
`Analytics.income_expenses_data`. -/
structure SummaryRow where
  month : ℤ
  makingCharges : ℚ
  goldGains : ℚ
  qtrMakingCharges : ℚ
  expenses : ℚ
  fixedCosts : ℚ
  totalIncome : ℚ
  totalCost : ℚ
  netProfit : ℚ
  position : String
deriving DecidableEq, Repr

/-- The QTR slice filter `cashbook["Sub-Category"] == "QTR Making
Charges"`. -/
def is_qtr_making (r : AggCashRow) : Bool :=
  r.subCategory == "QTR Making Charges"

/-- The expenses slice filter `(cashbook.Debit > 0) & (cashbook["Cost
Type"] != "FIXED")`. -/
def is_expense_row (r : AggCashRow) : Bool :=
  (0 < r.debit) && !(r.costType == "FIXED")

/-- The cashbook fixed-costs slice filter: Cost Type FIXED, excluding the
Staff Salaries, Visa Fees and Loans sub-categories and the Rent
super-category. -/
def is_cb_fixed (r : AggCashRow) : Bool :=
  (r.costType == "FIXED") && !(r.subCategory == "Staff Salaries") &&
  !(r.subCategory == "Visa Fees") && !(r.subCategory == "Loans") &&
  !(r.superCategory == "Rent")

/-- Embeds `Analytics.income_expenses_data`: group sales making charges
and gold gains by month (gold gains scaled by the gold rate), group the
QTR making-charge credits and the non-FIXED debits by month, compute the
constant monthly fixed costs (static fixed costs plus the cashbook FIXED
slice, each divided by 12), outer-merge everything on Month with absent
cells read as 0 (`fillna(0)`), and derive Total Income, Total Cost, Net
Profit and the Position label. -/
def income_expenses_data (sales_df : List AggSalesRow)
    (cashbook : List AggCashRow) (fixed_costs : List FixedCostRow)
    (gold_rate : ℚ) : List SummaryRow :=
  let monthly_making := group_sum (fun r => r.month)
    (fun r => r.makingValue) sales_df
  let monthly_gold := group_sum (fun r => r.month)
    (fun r => r.goldGains) sales_df
  let monthly_qtr := group_sum (fun r => r.month) (fun r => r.credit)
    (cashbook.filter is_qtr_making)
  let monthly_exp := group_sum (fun r => r.month) (fun r => r.debit)
    (cashbook.filter is_expense_row)
  let fc := (fixed_costs.map (fun r => r.debit)).sum / 12
  let cbfixed := ((cashbook.filter is_cb_fixed).map
    (fun r => r.debit)).sum / 12
  let months := (monthly_making.map Prod.fst ++ monthly_qtr.map Prod.fst ++
    monthly_exp.map Prod.fst).dedup
  months.map (fun m =>
    let making := (merged_at monthly_making m).getD 0
    let gold := ((merged_at monthly_gold m).getD 0) * gold_rate
    let qtr := (merged_at monthly_qtr m).getD 0
    let exp := (merged_at monthly_exp m).getD 0
    let fixedC := fc + cbfixed
    let ti := making + qtr
    let tc := -(exp + fixedC)
    let np := ti + tc
    { month := m, makingCharges := making, goldGains := gold,
      qtrMakingCharges := qtr, expenses := exp, fixedCosts := fixedC,
      totalIncome := ti, totalCost := tc, netProfit := np,
      position := if 0 < np then "Profit" else "Loss" })

/-- A one-row sales aggregate (one month with 1000 of making charges). -/
def exampleAggSales : List AggSalesRow := [⟨1, 1000, 0⟩]

/-- The monthly summary produced from `exampleAggSales` with an empty
cashbook, no static fixed costs and gold rate 0. -/
def exampleSummaryRow : SummaryRow :=
  { month := 1, makingCharges := 1000, goldGains := 0,
    qtrMakingCharges := 0, expenses := 0, fixedCosts := 0,
    totalIncome := 1000, totalCost := 0, netProfit := 1000,
    position := "Profit" }

end AJJS

namespace AJJS

/-- C3: classification at the out-of-band purity 0.50.  The sales-model
classifier raises (models as `Except.error`), but the Wingold classifier
returns the `ValueError` object as a normal, unraised result value: the
batch is not aborted on that code path, contradicting the claim that every
classification code path fails by raising. -/
theorem classification_at_half_returns_error_value :
    WingoldPurity.get_purity_category 0.50 = .valueErrorObj 0.50 ∧
    SalesPurity.get_purity_category 0.50 = .error 0.50 := by
  unfold WingoldPurity.get_purity_category SalesPurity.get_purity_category
  norm_num

/-- C4 counterexample: the sales-model classifier variant
(src/models/sales.py, whose 9K band is [0.375, 0.41]) classifies purity
0.405 as 9K, refuting the claim that no classifier assigns 9K to a purity
strictly greater than 0.40. -/
theorem sales_classifier_assigns_9K_to_0_405 :
    SalesPurity.get_purity_category 0.405 = .ok "9K" := by
  unfold SalesPurity.get_purity_category
  norm_num

/-- C4 amended: the Wingold classifier assigns 9K exactly on the closed
interval [0.375, 0.40], while the sales-model classifier assigns 9K exactly
on [0.375, 0.41] (so 0.405 is 9K in that variant). -/
theorem nineK_band_exact :
    (∀ p : ℚ, WingoldPurity.get_purity_category p = .val "9K" ↔
      0.375 ≤ p ∧ p ≤ 0.4) ∧
    (∀ p : ℚ, SalesPurity.get_purity_category p = .ok "9K" ↔
      0.375 ≤ p ∧ p ≤ 0.41) := by
  constructor
  · intro p
    unfold WingoldPurity.get_purity_category
    split_ifs with h1 h2 h3 h4
    · simp only [WingoldPurity.PyResult.val.injEq]
      constructor
      · intro h; exact absurd h (by decide)
      · rintro ⟨hl, hr⟩; exfalso; have := h1.1; norm_num at hr this; linarith
    · simp only [WingoldPurity.PyResult.val.injEq]
      constructor
      · intro h; exact absurd h (by decide)
      · rintro ⟨hl, hr⟩; exfalso; have := h2.1; norm_num at hr this; linarith
    · simp only [WingoldPurity.PyResult.val.injEq]
      constructor
      · intro h; exact absurd h (by decide)
      · rintro ⟨hl, hr⟩; exfalso; have := h3.1; norm_num at hr this; linarith
    · simp only [WingoldPurity.PyResult.val.injEq, true_iff]
      exact h4
    · constructor
      · intro h; exact absurd h (by simp)
      · intro h; exact absurd h h4
  · intro p
    unfold SalesPurity.get_purity_category
    split_ifs with h1 h2 h3 h4
    · simp only [Except.ok.injEq]
      constructor
      · intro h; exact absurd h (by decide)
      · rintro ⟨hl, hr⟩; exfalso; have := h1.1; norm_num at hr this; linarith
    · simp only [Except.ok.injEq]
      constructor
      · intro h; exact absurd h (by decide)
      · rintro ⟨hl, hr⟩; exfalso; have := h2.1; norm_num at hr this; linarith
    · simp only [Except.ok.injEq]
      constructor
      · intro h; exact absurd h (by decide)
      · rintro ⟨hl, hr⟩; exfalso; have := h3.1; norm_num at hr this; linarith
    · simp only [Except.ok.injEq, true_iff]
      exact h4
    · constructor
      · intro h; exact absurd h (by simp)
      · intro h; exact absurd h h4

/-! Helper lemmas linking the transaction-type classification to the
single-character prefix tests used by `extract_sales`. -/

theorem identify_eq_sale_iff (d : List Char) :
    identify_transaction d = "SALE" ↔ startsWithChar 'S' d = true := by
  cases d with
  | nil => simp [identify_transaction, startsWithChar]
  | cons a rest =>
    by_cases hS : a = 'S'
    · subst hS; simp [identify_transaction, startsWithChar]
    · by_cases hP : a = 'P'
      · subst hP; simp [identify_transaction, startsWithChar]
      · by_cases hR : a = 'R'
        · subst hR; simp [identify_transaction, startsWithChar]
        · by_cases hD : a = 'D'
          · subst hD; simp [identify_transaction, startsWithChar]
          · simp [identify_transaction, startsWithChar, hS, hP, hR, hD]

theorem identify_eq_return_iff (d : List Char) :
    identify_transaction d = "RETURN" ↔ startsWithChar 'R' d = true := by
  cases d with
  | nil => simp [identify_transaction, startsWithChar]
  | cons a rest =>
    by_cases hS : a = 'S'
    · subst hS; simp [identify_transaction, startsWithChar]
    · by_cases hP : a = 'P'
      · subst hP; simp [identify_transaction, startsWithChar]
      · by_cases hR : a = 'R'
        · subst hR; simp [identify_transaction, startsWithChar]
        · by_cases hD : a = 'D'
          · subst hD; simp [identify_transaction, startsWithChar]
          · simp [identify_transaction, startsWithChar, hS, hP, hR, hD]

/-- C10: the canonical sales table produced by `extract_sales` holds
exactly the transactions classified SALE (document number starting "S",
original signs) and those classified RETURN (starting "R", with gross
weight, pure weight and making value negated), each extended with the
derived GoldGains column; PURCHASE, DIRECT_SALE and unknown-prefix rows
contribute nothing. -/
theorem extract_sales_rows (transactions : List Tx) (row : SalesTx) :
    row ∈ extract_sales transactions ↔
      ((∃ t ∈ transactions, identify_transaction t.docNumber = "SALE" ∧
          row = with_gold_gains t) ∨
       (∃ t ∈ transactions, identify_transaction t.docNumber = "RETURN" ∧
          row = with_gold_gains (negate_return t))) := by
  unfold extract_sales
  simp only [List.mem_map, List.mem_append, List.mem_filter]
  constructor
  · rintro ⟨x, hx | hx, rfl⟩
    · exact Or.inl ⟨x, hx.1, (identify_eq_sale_iff _).2 hx.2, rfl⟩
    · obtain ⟨u, ⟨hu, huR⟩, rfl⟩ := hx
      exact Or.inr ⟨u, hu, (identify_eq_return_iff _).2 huR, rfl⟩
  · rintro (⟨t, ht, hid, rfl⟩ | ⟨t, ht, hid, rfl⟩)
    · exact ⟨t, Or.inl ⟨ht, (identify_eq_sale_iff _).1 hid⟩, rfl⟩
    · exact ⟨negate_return t,
        Or.inr ⟨t, ⟨ht, (identify_eq_return_iff _).1 hid⟩, rfl⟩, rfl⟩

/-! Helper lemmas for the supplier-subledger replace operation. -/

theorem filter_idem {α : Type} (p : α → Bool) (l : List α) :
    (l.filter p).filter p = l.filter p := by
  induction l with
  | nil => rfl
  | cons a l ih => by_cases h : p a <;> simp [List.filter_cons, h, ih]

theorem parse_supplier_sheet_category (sheet : List SupplierRaw) (c : String) :
    ∀ r ∈ parse_supplier_sheet sheet c, r.category = c := by
  intro r hr
  unfold parse_supplier_sheet at hr
  obtain ⟨x, _, rfl⟩ := List.mem_map.1 hr
  rfl

theorem parse_supplier_sheet_filter_ne (sheet : List SupplierRaw)
    (c : String) :
    (parse_supplier_sheet sheet c).filter (fun r => r.category ≠ c) = [] := by
  rw [List.filter_eq_nil_iff]
  intro r hr
  simp [parse_supplier_sheet_category sheet c r hr]

/-- C2: supplier-subledger ingestion is an idempotent replace-by-category:
running `read_supplier_account` twice with the same sheet and category name
produces the same cashbook as running it once, and in particular exactly
the same rows tagged with that supplier's category (all existing rows with
that category are removed before the freshly parsed rows are appended, so
nothing is duplicated). -/
theorem read_supplier_account_idempotent (cashbook : List LedgerRow)
    (sheet : List SupplierRaw) (category_name : String) :
    read_supplier_account
        (read_supplier_account cashbook sheet category_name)
        sheet category_name
      = read_supplier_account cashbook sheet category_name ∧
    (read_supplier_account
        (read_supplier_account cashbook sheet category_name)
        sheet category_name).filter (fun r => r.category == category_name)
      = (read_supplier_account cashbook sheet category_name).filter
          (fun r => r.category == category_name) := by
  have hmain : read_supplier_account
      (read_supplier_account cashbook sheet category_name)
      sheet category_name
      = read_supplier_account cashbook sheet category_name := by
    unfold read_supplier_account
    rw [List.filter_append, filter_idem,
      parse_supplier_sheet_filter_ne, List.append_nil]
  exact ⟨hmain, by rw [hmain]⟩

/-! Helper lemma for the running-balance recomputation. -/

theorem recompute_balance_getElem? (rows : List RawLedgerRow) (acc : ℚ)
    (i : ℕ) (h : i < rows.length) :
    ((recompute_balance acc rows).map (fun r => r.balance))[i]? =
      some (acc + (((rows.take (i + 1)).map (fun r => r.credit)).sum
                 - ((rows.take (i + 1)).map (fun r => r.debit)).sum)) := by
  induction rows generalizing acc i with
  | nil => exact absurd h (Nat.not_lt_zero i)
  | cons r rest ih =>
    cases i with
    | zero =>
      simp [recompute_balance]
      ring
    | succ n =>
      have hn : n < rest.length := Nat.lt_of_succ_lt_succ h
      have hrec := ih (acc + r.credit - r.debit) n hn
      simp only [recompute_balance, List.map_cons, List.getElem?_cons_succ,
        List.take_succ_cons, List.sum_cons]
      rw [hrec]
      congr 1
      ring

/-- C5: for either raw cashbook sub-ledger, the recomputed balance of the
i-th row is the cumulative sum of credits minus the cumulative sum of
debits over the first i+1 rows, where for the main sub-ledger the first
row's credit is first seeded from its originally recorded balance
(`seed_opening_credit`). -/
theorem recomputed_balance_is_cumulative (rows : List RawLedgerRow) (i : ℕ)
    (h : i < rows.length) :
    ((read_mcb_rows rows).map (fun r => r.balance))[i]? =
      some ((((seed_opening_credit rows).take (i + 1)).map
               (fun r => r.credit)).sum
            - (((seed_opening_credit rows).take (i + 1)).map
               (fun r => r.debit)).sum) ∧
    ((read_qtr_rows rows).map (fun r => r.balance))[i]? =
      some (((rows.take (i + 1)).map (fun r => r.credit)).sum
            - ((rows.take (i + 1)).map (fun r => r.debit)).sum) := by
  have hlen : (seed_opening_credit rows).length = rows.length := by
    cases rows <;> simp [seed_opening_credit]
  constructor
  · have h2 : i < (seed_opening_credit rows).length := by
      rw [hlen]; exact h
    have := recompute_balance_getElem? (seed_opening_credit rows) 0 i h2
    simpa [read_mcb_rows] using this
  · simpa [read_qtr_rows] using recompute_balance_getElem? rows 0 i h

/-- C5 witness: the invariant evaluated on a concrete two-row sub-ledger at
index 1. -/
theorem recomputed_balance_is_cumulative_witness :
    (1 < ([⟨1, "", "A", 2, 0, 100⟩, ⟨2, "", "B", 3, 5, 0⟩] :
        List RawLedgerRow).length) ∧
    (((read_mcb_rows [⟨1, "", "A", 2, 0, 100⟩, ⟨2, "", "B", 3, 5, 0⟩]).map
        (fun r => r.balance))[1]? =
      some ((((seed_opening_credit
                [⟨1, "", "A", 2, 0, 100⟩, ⟨2, "", "B", 3, 5, 0⟩]).take 2).map
               (fun r => r.credit)).sum
            - (((seed_opening_credit
                [⟨1, "", "A", 2, 0, 100⟩, ⟨2, "", "B", 3, 5, 0⟩]).take 2).map
               (fun r => r.debit)).sum) ∧
    ((read_qtr_rows [⟨1, "", "A", 2, 0, 100⟩, ⟨2, "", "B", 3, 5, 0⟩]).map
        (fun r => r.balance))[1]? =
      some ((([⟨1, "", "A", 2, 0, 100⟩, ⟨2, "", "B", 3, 5, 0⟩].take 2).map
               (fun r => (r : RawLedgerRow).credit)).sum
            - (([⟨1, "", "A", 2, 0, 100⟩, ⟨2, "", "B", 3, 5, 0⟩].take 2).map
               (fun r => (r : RawLedgerRow).debit)).sum)) :=
  ⟨by decide,
   recomputed_balance_is_cumulative
     [⟨1, "", "A", 2, 0, 100⟩, ⟨2, "", "B", 3, 5, 0⟩] 1 (by decide)⟩

/-- C8 counterexample: a debit-positive ledger row whose raw category
matches nothing in the expense table resolves to sub-category
"Uncategorized", and the cost-type lookup on that sub-category then
returns the string "Uncategorized" — a cost-type value other than
"FIXED", "VARIABLE" or the empty string, refuting the claim. -/
theorem cost_type_uncategorized_possible :
    (assign_categories_row exampleIncomeDB exampleExpenseDB
        exampleUnmatchedRow).costType = "Uncategorized" := by
  decide

/-- C8 amended: a canonical ledger row's derived cost type is the empty
string whenever its debit is not positive; when the debit is positive it is
either a cost-type key configured in the expense table (hence "FIXED" or
"VARIABLE" whenever the table only configures those) or the fallback string
"Uncategorized" for a sub-category absent from the table. -/
theorem cost_type_characterization (income_db expense_db : CategoryDB)
    (row : LedgerRow)
    (hkeys : ∀ kv ∈ (expense_db.map Prod.snd).flatten,
        kv.2.key = "FIXED" ∨ kv.2.key = "VARIABLE") :
    (¬ 0 < row.debit →
      (assign_categories_row income_db expense_db row).costType = "") ∧
    (0 < row.debit →
      (assign_categories_row income_db expense_db row).costType = "FIXED" ∨
      (assign_categories_row income_db expense_db row).costType =
        "VARIABLE" ∨
      (assign_categories_row income_db expense_db row).costType =
        "Uncategorized") := by
  unfold assign_categories_row
  constructor
  · intro hd
    simp [hd]
  · intro hd
    simp only [if_pos hd]
    unfold assign_cost_type
    cases hfind : ((expense_db.map Prod.snd).flatten).find?
        (fun kv => kv.1 == assign_subcategory row.category
          (if 0 < row.credit then income_db else expense_db)) with
    | none => simp [hfind]
    | some kv =>
      have hmem := List.mem_of_find?_eq_some hfind
      rcases hkeys kv hmem with h | h <;> simp [hfind, h]

/-- C8 witness: the characterization evaluated on a concrete expense table
whose only keys are FIXED and VARIABLE, at a debit-positive supplier row. -/
theorem cost_type_characterization_witness :
    (∀ kv ∈ ((exampleExpenseDB.map Prod.snd).flatten),
        kv.2.key = "FIXED" ∨ kv.2.key = "VARIABLE") ∧
    ((¬ 0 < exampleSupplierRow.debit →
      (assign_categories_row exampleIncomeDB exampleExpenseDB
        exampleSupplierRow).costType = "") ∧
    (0 < exampleSupplierRow.debit →
      (assign_categories_row exampleIncomeDB exampleExpenseDB
        exampleSupplierRow).costType = "FIXED" ∨
      (assign_categories_row exampleIncomeDB exampleExpenseDB
        exampleSupplierRow).costType = "VARIABLE" ∨
      (assign_categories_row exampleIncomeDB exampleExpenseDB
        exampleSupplierRow).costType = "Uncategorized")) :=
  ⟨by decide,
   cost_type_characterization exampleIncomeDB exampleExpenseDB
     exampleSupplierRow (by decide)⟩

/-- C6: a nonempty column-rename mapping with a target name outside the
canonical required-column set makes `add_data` fail with the schema error
and leave the Sales table exactly as it was, for every dataframe — the
validation runs before any renaming, preprocessing or concatenation. -/
theorem add_data_rejects_invalid_mapping (s : Sales) (df : List SalesInput)
    (m : List (String × String)) (hne : m ≠ [])
    (hbad : ¬ ∀ kv ∈ m, kv.2 ∈ required_columns) :
    add_data s df (some m) = (s, some .mappingError) := by
  have h1 : m.isEmpty = false := by
    cases m with
    | nil => exact absurd rfl hne
    | cons a l => rfl
  have h2 : (m.all fun kv => decide (kv.2 ∈ required_columns)) = false := by
    rw [Bool.eq_false_iff]
    intro hall
    exact hbad (by simpa using List.all_eq_true.1 hall)
  unfold add_data
  simp [h1, h2]

/-- C6 witness: the schema rejection evaluated at a concrete bad mapping
and an empty Sales object. -/
theorem add_data_rejects_invalid_mapping_witness :
    (([("Price", "Bogus Column")] : List (String × String)) ≠ []) ∧
    (¬ ∀ kv ∈ ([("Price", "Bogus Column")] : List (String × String)),
        kv.2 ∈ required_columns) ∧
    add_data ⟨none⟩ [] (some [("Price", "Bogus Column")]) =
      (⟨none⟩, some .mappingError) :=
  ⟨by decide, by decide,
   add_data_rejects_invalid_mapping ⟨none⟩ [] [("Price", "Bogus Column")]
     (by decide) (by decide)⟩

/-! Helper lemmas for the sales preprocessing step. -/

theorem drop_uncategorized_eq_self
    (rows : List (SalesInput × Option String)) :
    drop_uncategorized rows = rows := by
  unfold drop_uncategorized
  split_ifs with h
  · rw [List.filter_eq_self]
    intro p hp
    have hnil := List.isEmpty_iff.1 h
    have h2 := List.filter_eq_nil_iff.1 hnil p hp
    simpa using h2
  · rfl

theorem classify_row_ok_fields (p : SalesInput × Option String)
    (r : SalesRow) (h : classify_row p = .ok r) :
    r.itemCategory = p.2 ∧ r.toSalesInput = p.1 := by
  unfold classify_row at h
  cases hc : SalesPurity.get_purity_category p.1.purity with
  | error e => rw [hc] at h; exact absurd h (by simp)
  | ok cat =>
    cases hm : SalesPurity.get_manufacturing_purity p.1.purity with
    | error e => rw [hc, hm] at h; exact absurd h (by simp)
    | ok mp =>
      rw [hc, hm] at h
      cases h
      exact ⟨rfl, rfl⟩

theorem classify_rows_ok_mem (l : List (SalesInput × Option String))
    (out : List SalesRow) (h : classify_rows l = .ok out) :
    ∀ r ∈ out, ∃ p ∈ l, classify_row p = .ok r := by
  induction l generalizing out with
  | nil =>
    unfold classify_rows at h
    cases h
    intro r hr
    exact absurd hr (by simp)
  | cons p rest ih =>
    unfold classify_rows at h
    cases hc : classify_row p with
    | error e => rw [hc] at h; exact absurd h (by simp)
    | ok r0 =>
      rw [hc] at h
      cases hrest : classify_rows rest with
      | error e => rw [hrest] at h; exact absurd h (by simp)
      | ok rs =>
        rw [hrest] at h
        cases h
        intro r hr
        rcases List.mem_cons.1 hr with hr0 | hrs
        · exact ⟨p, List.mem_cons_self p rest, hr0 ▸ hc⟩
        · obtain ⟨q, hq, hqr⟩ := ih rs hrest r hrs
          exact ⟨q, List.mem_cons_of_mem p hq, hqr⟩

/-- C7 amended: during sales normalization an item code whose extracted
alphabetic part has no entry in the fixed table gets a MISSING item
category (`Series.map` yields NaN, not "Uncategorized"; only the codes
UNCAT and UNK map to "Uncategorized"), and the conditional
uncategorized-drop removes nothing in either branch (it only filters when
there is nothing to filter), so such rows stay visible downstream: every
produced row's item category is exactly the table lookup of the extracted
part of its (upper-cased) item code. -/
theorem item_category_assignment (df : List SalesInput)
    (out : List SalesRow) (h : preprocess df = .ok out) :
    (∀ rows, drop_uncategorized rows = rows) ∧
    ∀ r ∈ out, r.itemCategory = item_category_of (searchCode r.itemCode) := by
  refine ⟨drop_uncategorized_eq_self, ?_⟩
  intro r hr
  simp only [preprocess] at h
  rw [drop_uncategorized_eq_self] at h
  obtain ⟨p, hp, hpr⟩ := classify_rows_ok_mem _ out h r hr
  obtain ⟨hcat, hinput⟩ := classify_row_ok_fields p r hpr
  have hpmem := List.mem_of_mem_filter hp
  obtain ⟨u, _, hu⟩ := List.mem_map.1 hpmem
  have h2 : p.2 = item_category_of (searchCode p.1.itemCode) := by
    rw [← hu]
  rw [hcat, h2, hinput]

/-- Helper: the concrete evaluation of `preprocess` on the one-row noise
batch. -/
theorem preprocess_exampleNoiseBatch :
    preprocess exampleNoiseBatch = .ok [exampleNoiseRow] := by
  have hcat : SalesPurity.get_purity_category (0.916 : ℚ) = .ok "22K" := by
    unfold SalesPurity.get_purity_category
    norm_num
  have hmp :
      SalesPurity.get_manufacturing_purity (0.916 : ℚ) = .ok 0.916 := by
    unfold SalesPurity.get_manufacturing_purity
    norm_num
  have hne : ((0.916 : ℚ) ≠ 0.995) := by norm_num
  have hwr : weight_range_of ((10 : ℚ) / 1) = some "<20g" := by
    unfold weight_range_of
    norm_num
  have hext : item_category_of
      (searchCode ['1'.toUpper, '8'.toUpper, 'x'.toUpper, 'y'.toUpper,
        'z'.toUpper]) = none := by
    decide
  simp only [preprocess, exampleNoiseBatch]
  rw [drop_uncategorized_eq_self]
  simp only [List.map_cons, List.map_nil, List.filter_cons, List.filter_nil]
  rw [if_pos (decide_eq_true hne), hext]
  simp only [classify_rows, classify_row, hcat, hmp]
  simp only [exampleNoiseRow, Except.ok.injEq, List.cons.injEq, and_true,
    true_and, SalesRow.mk.injEq, SalesInput.mk.injEq]
  norm_num [hwr]
  decide

/-- C7 counterexample: the one-row batch whose upper-cased item code 18XYZ
has an unmapped extracted part XYZ survives preprocessing with a MISSING
item category (`none`), not the label "Uncategorized" the claim
promises. -/
theorem unmapped_code_kept_without_category :
    (preprocess exampleNoiseBatch).map
        (fun l => l.map (fun r => r.itemCategory)) = .ok [none] := by
  rw [preprocess_exampleNoiseBatch]
  rfl

/-- C7 witness: the amended statement evaluated on the concrete noise
batch. -/
theorem item_category_assignment_witness :
    (preprocess exampleNoiseBatch = .ok [exampleNoiseRow]) ∧
    ((∀ rows, drop_uncategorized rows = rows) ∧
     ∀ r ∈ [exampleNoiseRow],
       r.itemCategory = item_category_of (searchCode r.itemCode)) :=
  ⟨preprocess_exampleNoiseBatch,
   item_category_assignment exampleNoiseBatch [exampleNoiseRow]
     preprocess_exampleNoiseBatch⟩

/-- C1: every row of the monthly financial summary satisfies the derived
identities exactly (the embedding is over ℚ, so the 1e-6 float tolerance
is met with equality): Total Income = Making Charges + QTR Making Charges,
Total Cost = −(Expenses + Fixed Costs), Net Profit = Total Income + Total
Cost, and the Position label is "Profit" iff Net Profit > 0 (a zero net
profit is labelled "Loss"). -/
theorem income_expenses_row_invariants (sales_df : List AggSalesRow)
    (cashbook : List AggCashRow) (fixed_costs : List FixedCostRow)
    (gold_rate : ℚ) (row : SummaryRow)
    (h : row ∈ income_expenses_data sales_df cashbook fixed_costs
      gold_rate) :
    row.totalIncome = row.makingCharges + row.qtrMakingCharges ∧
    row.totalCost = -(row.expenses + row.fixedCosts) ∧
    row.netProfit = row.totalIncome + row.totalCost ∧
    (row.position = "Profit" ↔ 0 < row.netProfit) := by
  simp only [income_expenses_data] at h
  obtain ⟨m, hm, rfl⟩ := List.mem_map.1 h
  refine ⟨rfl, rfl, rfl, ?_⟩
  dsimp only
  split_ifs with hpos
  · simpa using hpos
  · constructor
    · intro hc
      exact absurd hc (by decide)
    · intro hg
      exact absurd hg hpos

/-- Helper: the concrete evaluation of the monthly summary on a one-month
sales table, an empty cashbook and no static fixed costs. -/
theorem income_expenses_example :
    income_expenses_data exampleAggSales [] [] 0 = [exampleSummaryRow] := by
  norm_num [income_expenses_data, exampleAggSales, exampleSummaryRow,
    group_sum, merged_at, is_qtr_making, is_expense_row, is_cb_fixed,
    List.find?, List.dedup]

/-- C1 witness: the row identities evaluated on the concrete one-month
summary. -/
theorem income_expenses_row_invariants_witness :
    (exampleSummaryRow ∈ income_expenses_data exampleAggSales [] [] 0) ∧
    (exampleSummaryRow.totalIncome = exampleSummaryRow.makingCharges +
        exampleSummaryRow.qtrMakingCharges ∧
     exampleSummaryRow.totalCost = -(exampleSummaryRow.expenses +
        exampleSummaryRow.fixedCosts) ∧
     exampleSummaryRow.netProfit = exampleSummaryRow.totalIncome +
        exampleSummaryRow.totalCost ∧
     (exampleSummaryRow.position = "Profit" ↔
        0 < exampleSummaryRow.netProfit)) :=
  ⟨by rw [income_expenses_example]; exact List.mem_singleton.2 rfl,
   income_expenses_row_invariants exampleAggSales [] [] 0 exampleSummaryRow
     (by rw [income_expenses_example]; exact List.mem_singleton.2 rfl)⟩

/-! Helper lemmas for the outer-join month coverage. -/

theorem group_sum_months {α : Type} (month : α → ℤ) (val : α → ℚ)
    (rows : List α) :
    (group_sum month val rows).map Prod.fst = (rows.map month).dedup := by
  unfold group_sum
  rw [List.map_map]
  have hid : (Prod.fst ∘ fun m : ℤ =>
      (m, ((rows.filter (fun r => month r == m)).map val).sum)) = id := by
    funext x
    rfl
  rw [hid, List.map_id]

theorem merged_at_group_sum_of_not_mem {α : Type} (month : α → ℤ)
    (val : α → ℚ) (rows : List α) (m : ℤ) (h : m ∉ rows.map month) :
    merged_at (group_sum month val rows) m = none := by
  unfold merged_at group_sum
  rw [List.find?_map]
  have hnone : ((rows.map month).dedup.find?
      ((fun p => p.1 == m) ∘ (fun x => (x, ((rows.filter
        (fun r => month r == x)).map val).sum)))) = none := by
    rw [List.find?_eq_none]
    intro x hx
    simp only [Function.comp, beq_iff_eq]
    rintro rfl
    exact h (List.mem_dedup.1 hx)
  rw [hnone]
  rfl

/-- C9: every month appearing in at least one of the three month-grouped
inputs (sales making charges, QTR making charges, non-fixed expenses) has
a row in the monthly summary, and a component with no contributing rows
for that month reads 0 there (outer join then `fillna(0)`), never a
missing row or an error: e.g. a month with sales but no qualifying ledger
debits has Expenses = 0. -/
theorem monthly_summary_outer_join_zero_fill (sales_df : List AggSalesRow)
    (cashbook : List AggCashRow) (fixed_costs : List FixedCostRow)
    (gold_rate : ℚ) (m : ℤ)
    (h : m ∈ sales_df.map (fun r => r.month) ∨
         m ∈ (cashbook.filter is_qtr_making).map (fun r => r.month) ∨
         m ∈ (cashbook.filter is_expense_row).map (fun r => r.month)) :
    ∃ row ∈ income_expenses_data sales_df cashbook fixed_costs gold_rate,
      row.month = m ∧
      ((∀ s ∈ sales_df, s.month ≠ m) → row.makingCharges = 0) ∧
      ((∀ c ∈ cashbook.filter is_qtr_making, c.month ≠ m) →
        row.qtrMakingCharges = 0) ∧
      ((∀ c ∈ cashbook.filter is_expense_row, c.month ≠ m) →
        row.expenses = 0) := by
  simp only [income_expenses_data]
  have hmonths : m ∈ ((group_sum (fun r : AggSalesRow => r.month)
        (fun r => r.makingValue) sales_df).map Prod.fst ++
      (group_sum (fun r : AggCashRow => r.month) (fun r => r.credit)
        (cashbook.filter is_qtr_making)).map Prod.fst ++
      (group_sum (fun r : AggCashRow => r.month) (fun r => r.debit)
        (cashbook.filter is_expense_row)).map Prod.fst).dedup := by
    rw [List.mem_dedup, List.mem_append, List.mem_append]
    rw [group_sum_months, group_sum_months, group_sum_months]
    rcases h with h1 | h2 | h3
    · exact Or.inl (Or.inl (List.mem_dedup.2 h1))
    · exact Or.inl (Or.inr (List.mem_dedup.2 h2))
    · exact Or.inr (List.mem_dedup.2 h3)
  refine ⟨_, List.mem_map.2 ⟨m, hmonths, rfl⟩, rfl, ?_, ?_, ?_⟩
  · intro hnone
    have hnm : m ∉ sales_df.map (fun r => r.month) := by
      intro hmem
      obtain ⟨s, hs, hsm⟩ := List.mem_map.1 hmem
      exact hnone s hs hsm
    dsimp only
    rw [merged_at_group_sum_of_not_mem _ _ _ _ hnm]
    rfl
  · intro hnone
    have hnm : m ∉ (cashbook.filter is_qtr_making).map
        (fun r => r.month) := by
      intro hmem
      obtain ⟨s, hs, hsm⟩ := List.mem_map.1 hmem
      exact hnone s hs hsm
    dsimp only
    rw [merged_at_group_sum_of_not_mem _ _ _ _ hnm]
    rfl
  · intro hnone
    have hnm : m ∉ (cashbook.filter is_expense_row).map
        (fun r => r.month) := by
      intro hmem
      obtain ⟨s, hs, hsm⟩ := List.mem_map.1 hmem
      exact hnone s hs hsm
    dsimp only
    rw [merged_at_group_sum_of_not_mem _ _ _ _ hnm]
    rfl

/-- C9 witness: month 1 has sales but no ledger rows at all, and its
summary row exists with QTR making charges and expenses both 0. -/
theorem monthly_summary_outer_join_zero_fill_witness :
    ((1 : ℤ) ∈ exampleAggSales.map (fun r => r.month) ∨
     (1 : ℤ) ∈ (([] : List AggCashRow).filter is_qtr_making).map
       (fun r => r.month) ∨
     (1 : ℤ) ∈ (([] : List AggCashRow).filter is_expense_row).map
       (fun r => r.month)) ∧
    (∃ row ∈ income_expenses_data exampleAggSales [] [] 0,
      row.month = 1 ∧
      ((∀ s ∈ exampleAggSales, s.month ≠ 1) → row.makingCharges = 0) ∧
      ((∀ c ∈ ([] : List AggCashRow).filter is_qtr_making, c.month ≠ 1) →
        row.qtrMakingCharges = 0) ∧
      ((∀ c ∈ ([] : List AggCashRow).filter is_expense_row, c.month ≠ 1) →
        row.expenses = 0)) :=
  ⟨Or.inl (by decide),
   monthly_summary_outer_join_zero_fill exampleAggSales [] [] 0 1
     (Or.inl (by decide))⟩

end AJJS
